import Mathlib

/-!
Verification of the autozen API gateway core: the RPC-over-broker bridge
(`src/infrastructure/adapters/rabbitmq_auth_adapter.py`,
`src/infrastructure/adapters/rabbitmq_payment_adapter.py`), the JWT validation
engine (`src/core/jwt_validator.py`), and the use-case layer that composes them
(`src/application/use_cases/refresh.py` and friends).

The Python code is shallowly embedded: coroutine effects are made explicit as
event traces, the `asyncio` wait outcome is an explicit parameter, and Python
exceptions become `Except` error values.
-/

/-- Error values raised by the gateway core.  `apiGatewayError` embeds
`ApiGatewayError` from `src/core/exceptions.py`; `rabbitMQError`,
`authServiceError` and `paymentServiceError` embed the classes of
`src/infrastructure/exceptions.py`.  `keyError` embeds a raw Python `KeyError`
escaping from a `payload[...]` subscript: it is not one of the typed gateway
errors.  `typeError` embeds a raw Python `TypeError` escaping from a
dataclass constructor whose keyword arguments do not match its signature.
The `detail` fields are `Option String` because the adapters pass
`response.error_message`, which may be `None`. -/
inductive GatewayError where
  | apiGatewayError (status_code : Nat) (detail : Option String)
  | rabbitMQError (status_code : Nat) (detail : Option String)
  | authServiceError (status_code : Nat) (detail : Option String)
  | paymentServiceError (status_code : Nat) (detail : Option String)
  | keyError (key : String)
  | typeError (message : String)
deriving DecidableEq, Repr

/-- True for the typed error-taxonomy values, false for a raw `KeyError` or
`TypeError`. -/
def GatewayError.is_taxonomy : GatewayError → Bool
  | .keyError _ => false
  | .typeError _ => false
  | _ => true

/-- True when an adapter or validator call ended in a success value or a typed
taxonomy error (never a raw exception). -/
def exceptTaxonomy {α : Type} : Except GatewayError α → Bool
  | .ok _ => true
  | .error e => e.is_taxonomy

/-- Decoded JWT claims as the Python `dict` returned by `jwt.decode`.  Fields
are `Option` because a decoded token may lack a claim: subscripting a missing
key raises `KeyError`. -/
structure TokenPayload where
  token_type : Option String
  roles : Option (List String)
deriving DecidableEq, Repr

/-- Outcome of `jwt.decode` in `JWTValidator.validate_token`
(`src/core/jwt_validator.py`): either a decoded payload or one of the three
caught `jwt` exception classes. -/
inductive DecodeOutcome where
  | ok (payload : TokenPayload)
  | invalidSignature
  | expiredSignature
  | invalidToken
deriving DecidableEq, Repr

/-- Embedding of `JWTValidator.validate_token` (`src/core/jwt_validator.py`,
lines 15-68).  The decode step is given as an explicit `DecodeOutcome`; the
body follows the source line by line: decode errors map to 401, then the
`token_type` comparison (401 on mismatch, `KeyError` on a missing claim), then
the role loop (`required_roles` truthiness, 403 on the first missing role,
`KeyError` when the `roles` claim is absent). -/
def validate_token (decoded : DecodeOutcome) (required_token_type : String)
    (required_roles : List String) : Except GatewayError TokenPayload :=
  match decoded with
  | .invalidSignature => .error (.apiGatewayError 401 (some "Invalid token signature."))
  | .expiredSignature => .error (.apiGatewayError 401 (some "Expired token signature."))
  | .invalidToken => .error (.apiGatewayError 401 (some "Invalid token."))
  | .ok payload =>
    match payload.token_type with
    | none => .error (.keyError "token_type")
    | some t =>
      if t ≠ required_token_type then
        .error (.apiGatewayError 401 (some "Invalid token."))
      else if required_roles.isEmpty then
        .ok payload
      else
        match payload.roles with
        | none => .error (.keyError "roles")
        | some rs =>
          if required_roles.all (fun role => rs.contains role) then
            .ok payload
          else
            .error (.apiGatewayError 403
              (some "You don\x27t have permission to access this resource."))

/-- One message delivered to a reply-queue consumer, with the aio-pika
`correlation_id` property (may be absent) and the raw body. -/
structure IncomingMessage where
  correlation_id : Option String
  body : String
deriving DecidableEq, Repr

/-- Result of running the `on_response` callback once: the state of the
`asyncio` future afterwards, whether the message was acked, and whether
`future.set_result` raised `InvalidStateError` (which it does whenever the
future is already resolved). -/
structure ConsumeStep where
  future : Option IncomingMessage
  acked : Bool
  invalid_state_raised : Bool
deriving DecidableEq, Repr

/-- Embedding of the inner `on_response` callback of `_make_rpc_call`
(identical in `rabbitmq_auth_adapter.py` and `rabbitmq_payment_adapter.py`,
lines 96-99): on a matching correlation id it calls `future.set_result` and
then acks; `set_result` on an already-resolved future raises
`InvalidStateError` before the ack is reached; a mismatched correlation id
falls through with no effect and no ack. -/
def on_response (future : Option IncomingMessage) (correlation_id : String)
    (received_message : IncomingMessage) : ConsumeStep :=
  if received_message.correlation_id = some correlation_id then
    match future with
    | none => ⟨some received_message, true, false⟩
    | some m => ⟨some m, false, true⟩
  else
    ⟨future, false, false⟩

/-- Decoded JSON body of a broker reply, per the wire protocol: `status_code`,
`body` (opaque key-value mapping), `success`, `error_message`, `error_origin`. -/
structure ReplyPayload where
  status_code : Nat
  body : List (String × String)
  success : Bool
  error_message : Option String
  error_origin : Option String
deriving DecidableEq, Repr

/-- Modelled from the spec: the `RabbitMQResponse` envelope class
(`src/domain/models/rabbitmq_response.py`, imported by both adapters but absent
from the tree).  Per the spec's data model it carries `statusCode`, `body`,
`success`, `errorMessage` and `errorOrigin`, is immutable after construction,
and satisfies the invariant that `success == false` whenever
`statusCode >= 400`. -/
structure RabbitMQResponse where
  status_code : Nat
  body : List (String × String)
  success : Bool
  error_message : Option String
  error_origin : Option String
deriving DecidableEq, Repr

/-- Modelled from the spec: the `RabbitMQResponse.success_response` factory
used by `rabbitmq_payment_adapter.py` line 119 (its defining module is absent
from the tree).  It builds the envelope from a status code and body alone;
faithful to the spec's envelope invariant, the `success` flag is false exactly
when the status code is 400 or above, and the error fields are empty. -/
def RabbitMQResponse.success_response (status_code : Nat)
    (body : List (String × String)) : RabbitMQResponse :=
  ⟨status_code, body, decide (status_code < 400), none, none⟩

/-- Outcome of the try-block of `_make_rpc_call` once the publish statement has
been reached: a decoded reply resolved the future, the wait timed out
(`asyncio.TimeoutError`), an `AMQPException` was raised by the publish or
during the wait, or some other exception occurred (e.g. JSON decoding). -/
inductive WaitOutcome where
  | reply (decoded : ReplyPayload)
  | timeout
  | publishAmqpError
  | waitAmqpError
  | unexpectedError
deriving DecidableEq, Repr

/-- Broker-resource events performed by one `_make_rpc_call` invocation. -/
inductive RpcEvent where
  | declareReplyQueue
  | registerConsumer
  | publishRequest
  | cancelConsumer
deriving DecidableEq, Repr

/-- Queue-declaration flags. -/
structure QueueDeclareArgs where
  exclusive : Bool
  auto_delete : Bool
deriving DecidableEq, Repr

/-- Flags of the per-call reply queue, from the `declare_queue` call of both
adapters (lines 87-91): exclusive and auto-delete, so cancelling its only
consumer releases the queue on the broker. -/
def callback_queue_args : QueueDeclareArgs := ⟨true, true⟩

/-- Events before the try-block of `_make_rpc_call`: declare the reply queue,
then register the `on_response` consumer. -/
def rpc_setup_events : List RpcEvent := [.declareReplyQueue, .registerConsumer]

/-- Events of the try-block: the publish is its first statement, so it is
reached in every modelled outcome. -/
def rpc_try_events (_outcome : WaitOutcome) : List RpcEvent := [.publishRequest]

/-- Events of the finally-block: cancel the consumer unconditionally. -/
def rpc_cleanup_events : List RpcEvent := [.cancelConsumer]

/-- The broker-resource event trace of one `_make_rpc_call` invocation that
reached consumer creation (both adapters share the identical statement
sequence): setup, try-block, then the finally-block cleanup, which Python runs
on the return path and on every exception path alike. -/
def make_rpc_call_trace (outcome : WaitOutcome) : List RpcEvent :=
  rpc_setup_events ++ rpc_try_events outcome ++ rpc_cleanup_events

/-- Default `timeout` parameter of `_make_rpc_call` in both adapters. -/
def make_rpc_call_default_timeout : Nat := 5

/-- Result of `RabbitMQAuthAdapter._make_rpc_call`
(`rabbitmq_auth_adapter.py`, lines 103-150): a reply is decoded into a
`RabbitMQResponse` field by field; `asyncio.TimeoutError` maps to
`AuthServiceError(504)`, `AMQPException` to `RabbitMQError(503)`, anything
else to `ApiGatewayError(500)`. -/
def auth_make_rpc_call (outcome : WaitOutcome) : Except GatewayError RabbitMQResponse :=
  match outcome with
  | .reply d => .ok ⟨d.status_code, d.body, d.success, d.error_message, d.error_origin⟩
  | .timeout => .error (.authServiceError 504
      (some "asyncio.TimeoutError: Auth Service is not responding."))
  | .publishAmqpError => .error (.rabbitMQError 503 (some "RabbitMQ communication error."))
  | .waitAmqpError => .error (.rabbitMQError 503 (some "RabbitMQ communication error."))
  | .unexpectedError => .error (.apiGatewayError 500
      (some "Unhandled error occurred while processing a message."))

/-- Result of `RabbitMQPaymentAdapter._make_rpc_call`
(`rabbitmq_payment_adapter.py`, lines 103-148): the reply is passed to
`RabbitMQResponse.success_response` with only its status code and body;
`asyncio.TimeoutError` maps to `PaymentServiceError(504)`, `AMQPException` to
`RabbitMQError(503)`, anything else to `ApiGatewayError(500)`. -/
def payment_make_rpc_call (outcome : WaitOutcome) : Except GatewayError RabbitMQResponse :=
  match outcome with
  | .reply d => .ok (RabbitMQResponse.success_response d.status_code d.body)
  | .timeout => .error (.paymentServiceError 504
      (some "asyncio.TimeoutError: Payment Service is not responding."))
  | .publishAmqpError => .error (.rabbitMQError 503 (some "RabbitMQ communication error."))
  | .waitAmqpError => .error (.rabbitMQError 503 (some "RabbitMQ communication error."))
  | .unexpectedError => .error (.apiGatewayError 500
      (some "Unhandled error occurred while processing a message."))

/-- Embedding of `RabbitMQAuthAdapter._handle_error_response`
(`rabbitmq_auth_adapter.py`, lines 219-250): status codes 400, 401, 403, 404
re-raise as `AuthServiceError` with the reply's error message, 500 as a fixed
`AuthServiceError(500)`, and every other status code falls through to a
generic `ApiGatewayError(500)`. -/
def auth_handle_error_response (response : RabbitMQResponse) : GatewayError :=
  if response.status_code = 400 ∨ response.status_code = 401 ∨
      response.status_code = 403 ∨ response.status_code = 404 then
    .authServiceError response.status_code response.error_message
  else if response.status_code = 500 then
    .authServiceError 500
      (some "Unhandled error occurred in the Auth Service while processing the message.")
  else
    .apiGatewayError 500 (some "Unhandled error occurred while processing the response code.")

/-- Embedding of `RabbitMQPaymentAdapter._handle_error_response`
(`rabbitmq_payment_adapter.py`, lines 170-202): 400, 401, 403 re-raise as
`PaymentServiceError`, 500 as a fixed `PaymentServiceError(500)`, anything
else as a generic `ApiGatewayError(500)`. -/
def payment_handle_error_response (response : RabbitMQResponse) : GatewayError :=
  if response.status_code = 400 ∨ response.status_code = 401 ∨
      response.status_code = 403 then
    .paymentServiceError response.status_code response.error_message
  else if response.status_code = 500 then
    .paymentServiceError 500
      (some "Unhandled error occurred in the Payment Service while processing the message.")
  else
    .apiGatewayError 500 (some "Unhandled error occurred while processing the response code.")

/-- Created user data, `RegisterResponseDTO(**response.body)`. -/
structure RegisterResponseDTO where
  fields : List (String × String)
deriving DecidableEq, Repr

/-- Refreshed token pair, `RefreshTokenResponseDTO(**response.body)`. -/
structure RefreshTokenResponseDTO where
  fields : List (String × String)
deriving DecidableEq, Repr

/-- Payment token data, `PaymentTokenResponse(**response.body)`. -/
structure PaymentTokenResponse where
  fields : List (String × String)
deriving DecidableEq, Repr

/-- Required constructor parameters of the `RegisterResponseDTO` frozen
dataclass (`src/domain/models/auth_responses.py`): `first_name` and
`last_name` have no defaults. -/
def register_response_dto_required_keys : List String := ["first_name", "last_name"]

/-- All constructor parameters of `RegisterResponseDTO`: the required two
plus `email`, `phone_number` and `roles`, which carry defaults. -/
def register_response_dto_allowed_keys : List String :=
  ["first_name", "last_name", "email", "phone_number", "roles"]

/-- All constructor parameters of `RefreshTokenResponseDTO`, inherited from
`JwtTokensResponseDTO` (`src/domain/models/auth_responses.py`): both carry
defaults, so none is required. -/
def refresh_response_dto_allowed_keys : List String := ["access_token", "refresh_token"]

/-- Required constructor parameters of the `PaymentTokenResponse` dataclass
(`src/domain/models/payment_token.py`): four fields without defaults. -/
def payment_token_response_required_keys : List String :=
  ["payment_token", "card_type", "expiration_month", "expiration_year"]

/-- All constructor parameters of `PaymentTokenResponse`: the required four
plus `created_at`, `updated_at` and `id`, which carry defaults. -/
def payment_token_response_allowed_keys : List String :=
  ["payment_token", "card_type", "expiration_month", "expiration_year",
    "created_at", "updated_at", "id"]

/-- Python keyword-expansion check for `Dataclass(**body)`: the call succeeds
iff every required parameter appears among the body's keys and every key is a
known parameter; otherwise the constructor raises a raw `TypeError`. -/
def dto_body_conforms (required allowed : List String)
    (body : List (String × String)) : Bool :=
  required.all (fun k => (body.map Prod.fst).contains k) &&
  (body.map Prod.fst).all (fun k => allowed.contains k)

/-- The `RegisterResponseDTO(**response.body)` call of
`rabbitmq_auth_adapter.py` line 217: it sits outside the try/except, so a
body that does not match the dataclass signature raises a raw `TypeError`. -/
def RegisterResponseDTO.from_body (body : List (String × String)) :
    Except GatewayError RegisterResponseDTO :=
  if dto_body_conforms register_response_dto_required_keys
      register_response_dto_allowed_keys body then
    .ok ⟨body⟩
  else
    .error (.typeError "RegisterResponseDTO() keyword arguments do not match the dataclass fields")

/-- The `RefreshTokenResponseDTO(**response.body)` call of
`rabbitmq_auth_adapter.py` line 195, outside the try/except: an unexpected
keyword raises a raw `TypeError` (no parameter is required). -/
def RefreshTokenResponseDTO.from_body (body : List (String × String)) :
    Except GatewayError RefreshTokenResponseDTO :=
  if dto_body_conforms [] refresh_response_dto_allowed_keys body then
    .ok ⟨body⟩
  else
    .error (.typeError "RefreshTokenResponseDTO() keyword arguments do not match the dataclass fields")

/-- The `PaymentTokenResponse(**response.body)` call of
`rabbitmq_payment_adapter.py` line 168, outside the try/except: a body
missing any of the four required fields, or carrying an unknown key, raises a
raw `TypeError`. -/
def PaymentTokenResponse.from_body (body : List (String × String)) :
    Except GatewayError PaymentTokenResponse :=
  if dto_body_conforms payment_token_response_required_keys
      payment_token_response_allowed_keys body then
    .ok ⟨body⟩
  else
    .error (.typeError "PaymentTokenResponse() keyword arguments do not match the dataclass fields")

/-- Response-interpretation step of `RabbitMQAuthAdapter.register`
(lines 212-217): on `success == false` the reply is handed to
`_handle_error_response`, which raises on every branch; on `success == true`
the DTO is built by `RegisterResponseDTO(**response.body)`, whose keyword
expansion can raise a raw `TypeError`. -/
def auth_register_interpret (response : RabbitMQResponse) :
    Except GatewayError RegisterResponseDTO :=
  if response.success then RegisterResponseDTO.from_body response.body
  else .error (auth_handle_error_response response)

/-- `RabbitMQAuthAdapter.register` (lines 197-217): issue the RPC with
operation type `register`, then interpret the envelope. -/
def auth_register (outcome : WaitOutcome) : Except GatewayError RegisterResponseDTO :=
  (auth_make_rpc_call outcome).bind auth_register_interpret

/-- Response-interpretation step of `RabbitMQAuthAdapter.refresh`
(lines 192-195), ending in `RefreshTokenResponseDTO(**response.body)`. -/
def auth_refresh_interpret (response : RabbitMQResponse) :
    Except GatewayError RefreshTokenResponseDTO :=
  if response.success then RefreshTokenResponseDTO.from_body response.body
  else .error (auth_handle_error_response response)

/-- `RabbitMQAuthAdapter.refresh` (lines 177-195): issue the RPC with
operation type `refresh`, then interpret the envelope. -/
def auth_refresh (outcome : WaitOutcome) : Except GatewayError RefreshTokenResponseDTO :=
  (auth_make_rpc_call outcome).bind auth_refresh_interpret

/-- Response-interpretation step of `RabbitMQPaymentAdapter.add_bank_card`
(lines 165-168), ending in `PaymentTokenResponse(**response.body)`. -/
def payment_add_bank_card_interpret (response : RabbitMQResponse) :
    Except GatewayError PaymentTokenResponse :=
  if response.success then PaymentTokenResponse.from_body response.body
  else .error (payment_handle_error_response response)

/-- `RabbitMQPaymentAdapter.add_bank_card` (lines 150-168). -/
def payment_add_bank_card (outcome : WaitOutcome) : Except GatewayError PaymentTokenResponse :=
  (payment_make_rpc_call outcome).bind payment_add_bank_card_interpret

/-- `RefreshUseCase.execute` (`src/application/use_cases/refresh.py`,
lines 16-26): the body is a single statement,
`return await self._auth_adapter.refresh(refresh_token_payload)` — there is no
call to the token validator. -/
def refresh_use_case_execute (outcome : WaitOutcome) :
    Except GatewayError RefreshTokenResponseDTO :=
  auth_refresh outcome

/-- Broker-event trace of one `RefreshUseCase.execute` run: exactly the trace
of the adapter's `_make_rpc_call`, since `execute` adds no step of its own. -/
def refresh_use_case_trace (outcome : WaitOutcome) : List RpcEvent :=
  make_rpc_call_trace outcome

/-- A register-call outcome whose success-reply body (if any) matches the
`RegisterResponseDTO` dataclass signature, so the final DTO construction
cannot raise. -/
def register_reply_conforms : WaitOutcome → Bool
  | .reply r => !r.success || dto_body_conforms register_response_dto_required_keys
      register_response_dto_allowed_keys r.body
  | _ => true

/-- A refresh-call outcome whose success-reply body (if any) matches the
`RefreshTokenResponseDTO` dataclass signature. -/
def refresh_reply_conforms : WaitOutcome → Bool
  | .reply r => !r.success || dto_body_conforms [] refresh_response_dto_allowed_keys r.body
  | _ => true

/-- An add-bank-card outcome whose reply body matches the
`PaymentTokenResponse` dataclass signature whenever the constructed envelope
is successful (the payment adapter derives `success` via `success_response`,
not from the reply's own flag). -/
def payment_reply_conforms : WaitOutcome → Bool
  | .reply r => !(RabbitMQResponse.success_response r.status_code r.body).success ||
      dto_body_conforms payment_token_response_required_keys
        payment_token_response_allowed_keys r.body
  | _ => true

/-- Unfolding of the per-call event trace: it is the same statement sequence
for every outcome, because the publish opens the try-block and the cancel is
in the finally-block. -/
theorem make_rpc_call_trace_eq (outcome : WaitOutcome) :
    make_rpc_call_trace outcome =
      [.declareReplyQueue, .registerConsumer, .publishRequest, .cancelConsumer] := rfl

/-- Claim C1: every `_make_rpc_call` invocation (on either adapter) that
reaches the point where the reply queue and its consumer exist cancels the
consumer exactly once, as the final action, on every outcome — matching reply,
timeout, or broker/transport error — and the queue, declared exclusive and
auto-delete, is thereby released; declarations and cancellations balance
one-for-one, so no call leaves a residual consumer or reply queue. -/
theorem C1_rpc_cleanup_unconditional (outcome : WaitOutcome) :
    (make_rpc_call_trace outcome).count .cancelConsumer = 1 ∧
    (make_rpc_call_trace outcome).count .registerConsumer = 1 ∧
    (make_rpc_call_trace outcome).count .declareReplyQueue = 1 ∧
    (make_rpc_call_trace outcome).getLast? = some .cancelConsumer ∧
    callback_queue_args = ⟨true, true⟩ := by
  rw [make_rpc_call_trace_eq]
  decide

/-- Claim C2: the `on_response` consumer resolves the call's result slot with
a delivered message exactly when the message's correlation id equals the id
generated for that call; a mismatched message leaves the slot untouched and is
not acknowledged, so a message correlated to one call can never resolve a
different call's slot (distinct calls carry distinct correlation ids). -/
theorem C2_correlation_id_isolation (future : Option IncomingMessage)
    (corr corr2 : String) (msg : IncomingMessage) :
    ((on_response none corr msg).future = some msg ↔ msg.correlation_id = some corr) ∧
    (msg.correlation_id ≠ some corr →
      on_response future corr msg = ⟨future, false, false⟩) ∧
    (corr ≠ corr2 → msg.correlation_id = some corr →
      (on_response future corr2 msg).future = future ∧
      (on_response future corr2 msg).acked = false) := by
  refine ⟨?_, ?_, ?_⟩
  · by_cases h : msg.correlation_id = some corr <;> simp [on_response, h]
  · intro h
    simp [on_response, h]
  · intro hne hmsg
    have h2 : msg.correlation_id ≠ some corr2 := by
      rw [hmsg]
      simp
      intro hc
      exact hne hc
    simp [on_response, h2]

/-- Claim C2 witness: the isolation theorem applied at a concrete pair of
calls and a concrete message. -/
theorem C2_correlation_id_isolation_witness :
    (on_response (some ⟨some "a", "r0"⟩) "b" ⟨some "a", "m"⟩).future = some ⟨some "a", "r0"⟩ ∧
    (on_response (some ⟨some "a", "r0"⟩) "b" ⟨some "a", "m"⟩).acked = false :=
  (C2_correlation_id_isolation (some ⟨some "a", "r0"⟩) "a" "b" ⟨some "a", "m"⟩).2.2
    (by decide) (by decide)

/-- Claim C7: when no matching reply resolves the result slot within the
timeout (default 5 seconds), the auth adapter fails with
`AuthServiceError(504)` and the payment adapter with
`PaymentServiceError(504)` — the SourceTimeout taxonomy outcome — and no
retry happens: every outcome of a call publishes exactly one request. -/
theorem C7_timeout_maps_to_504_no_retry :
    auth_make_rpc_call .timeout = .error (.authServiceError 504
      (some "asyncio.TimeoutError: Auth Service is not responding.")) ∧
    payment_make_rpc_call .timeout = .error (.paymentServiceError 504
      (some "asyncio.TimeoutError: Payment Service is not responding.")) ∧
    make_rpc_call_default_timeout = 5 ∧
    ∀ outcome, (make_rpc_call_trace outcome).count .publishRequest = 1 := by
  refine ⟨rfl, rfl, rfl, ?_⟩
  intro outcome
  rw [make_rpc_call_trace_eq]
  decide

/-- Claim C3 counterexample: a register call whose broker reply is
`status_code 409, success false` does not raise a Conflict-class error —
409 is absent from `_handle_error_response`'s mapped set (400, 401, 403, 404,
500), so the reply falls through to the generic internal
`ApiGatewayError(500)`. -/
theorem C3_register_conflict_counterexample :
    auth_register (.reply ⟨409, [], false, none, none⟩) =
      .error (.apiGatewayError 500
        (some "Unhandled error occurred while processing the response code.")) ∧
    ¬ ∃ d, auth_register (.reply ⟨409, [], false, none, none⟩) =
      .error (.authServiceError 409 d) := by
  constructor
  · rfl
  · intro ⟨d, hd⟩
    simp [auth_register, auth_make_rpc_call, auth_register_interpret,
      auth_handle_error_response, Except.bind] at hd

/-- Claim C3 amended: for every register call whose broker reply has
status_code 409 and success false, the auth adapter raises the generic
internal `ApiGatewayError` with code 500 — 409 is not among the status codes
`_handle_error_response` maps, so it takes the unhandled-code branch. -/
theorem C3_register_conflict_amended (reply : ReplyPayload)
    (hstatus : reply.status_code = 409) (hfail : reply.success = false) :
    auth_register (.reply reply) =
      .error (.apiGatewayError 500
        (some "Unhandled error occurred while processing the response code.")) := by
  simp [auth_register, auth_make_rpc_call, Except.bind, auth_register_interpret,
    auth_handle_error_response, hstatus, hfail]

/-- Claim C3 amended witness: the amended theorem at a concrete 409 reply. -/
theorem C3_register_conflict_amended_witness :
    auth_register (.reply ⟨409, [("email", "a@b.com")], false, some "duplicate", some "auth"⟩) =
      .error (.apiGatewayError 500
        (some "Unhandled error occurred while processing the response code.")) :=
  C3_register_conflict_amended ⟨409, [("email", "a@b.com")], false, some "duplicate", some "auth"⟩
    rfl rfl

/-- Claim C8 counterexample: two replies carrying the same correlation id
delivered to one call's consumer.  The first resolves the slot and is acked,
but the second is not acknowledged and raises `InvalidStateError` out of the
consumer callback (`future.set_result` on a resolved future), contradicting
the claim that the second is acked and dropped without error. -/
theorem C8_duplicate_reply_counterexample :
    (on_response none "c" ⟨some "c", "r1"⟩).future = some ⟨some "c", "r1"⟩ ∧
    (on_response none "c" ⟨some "c", "r1"⟩).acked = true ∧
    (on_response (some ⟨some "c", "r1"⟩) "c" ⟨some "c", "r2"⟩).acked = false ∧
    (on_response (some ⟨some "c", "r1"⟩) "c" ⟨some "c", "r2"⟩).invalid_state_raised = true := by
  decide

/-- Claim C8 amended: if two replies with the call's correlation id are
delivered, the first resolves the result slot and is acknowledged; processing
the second leaves the result slot unchanged but raises `InvalidStateError`
from `future.set_result`, and the second message is never acknowledged. -/
theorem C8_duplicate_reply_amended (corr : String) (m1 m2 : IncomingMessage)
    (h1 : m1.correlation_id = some corr) (h2 : m2.correlation_id = some corr) :
    on_response none corr m1 = ⟨some m1, true, false⟩ ∧
    on_response (some m1) corr m2 = ⟨some m1, false, true⟩ := by
  constructor
  · simp [on_response, h1]
  · simp [on_response, h2]

/-- Claim C8 amended witness: the amended theorem at two concrete replies. -/
theorem C8_duplicate_reply_amended_witness :
    on_response none "k" ⟨some "k", "b1"⟩ = ⟨some ⟨some "k", "b1"⟩, true, false⟩ ∧
    on_response (some ⟨some "k", "b1"⟩) "k" ⟨some "k", "b2"⟩ =
      ⟨some ⟨some "k", "b1"⟩, false, true⟩ :=
  C8_duplicate_reply_amended "k" ⟨some "k", "b1"⟩ ⟨some "k", "b2"⟩ rfl rfl

/-- Claim C5 counterexample: `RefreshUseCase.execute` contains no token
validation.  The validator would reject an access-type token where a refresh
token is required (first conjunct), yet the refresh flow publishes its RPC
request to the broker and completes with the backend's reply (remaining
conjuncts) — the broker is contacted, and no Unauthorized error is raised by
the gateway for the wrong-type token. -/
theorem C5_refresh_no_local_validation_counterexample :
    validate_token (.ok ⟨some "access", some ["user"]⟩) "refresh" [] =
      .error (.apiGatewayError 401 (some "Invalid token.")) ∧
    (refresh_use_case_trace (.reply ⟨200, [("access_token", "AT")], true, none, none⟩)).count
      .publishRequest = 1 ∧
    refresh_use_case_execute (.reply ⟨200, [("access_token", "AT")], true, none, none⟩) =
      .ok ⟨[("access_token", "AT")]⟩ := by
  refine ⟨rfl, ?_, rfl⟩
  rw [refresh_use_case_trace, make_rpc_call_trace_eq]
  decide

/-- Claim C5 amended: `validate_token` does reject a token whose `token_type`
claim is `access` when `refresh` is required, with the 401 Unauthorized error;
but `RefreshUseCase.execute` never calls the validator — its trace publishes
the RPC request to the broker on every run, regardless of the token's type
claim. -/
theorem C5_refresh_no_local_validation_amended (p : TokenPayload)
    (htype : p.token_type = some "access") :
    validate_token (.ok p) "refresh" [] = .error (.apiGatewayError 401 (some "Invalid token.")) ∧
    ∀ outcome, (refresh_use_case_trace outcome).count .publishRequest = 1 := by
  constructor
  · simp [validate_token, htype]
  · intro outcome
    rw [refresh_use_case_trace, make_rpc_call_trace_eq]
    decide

/-- Claim C5 amended witness: the amended theorem at a concrete access-type
payload, its conclusion specialized to the timeout outcome. -/
theorem C5_refresh_no_local_validation_amended_witness :
    validate_token (.ok ⟨some "access", some ["user"]⟩) "refresh" [] =
      .error (.apiGatewayError 401 (some "Invalid token.")) ∧
    (refresh_use_case_trace .timeout).count .publishRequest = 1 :=
  ⟨(C5_refresh_no_local_validation_amended ⟨some "access", some ["user"]⟩ rfl).1,
   (C5_refresh_no_local_validation_amended ⟨some "access", some ["user"]⟩ rfl).2 .timeout⟩

/-- Every branch of the auth adapter's `_handle_error_response` produces a
typed taxonomy error, never a raw exception. -/
theorem auth_handle_error_response_is_taxonomy (r : RabbitMQResponse) :
    (auth_handle_error_response r).is_taxonomy = true := by
  unfold auth_handle_error_response
  split_ifs <;> rfl

/-- Every branch of the payment adapter's `_handle_error_response` produces a
typed taxonomy error, never a raw exception. -/
theorem payment_handle_error_response_is_taxonomy (r : RabbitMQResponse) :
    (payment_handle_error_response r).is_taxonomy = true := by
  unfold payment_handle_error_response
  split_ifs <;> rfl

/-- Every outcome of `RabbitMQAuthAdapter.register` whose success-reply body
matches the `RegisterResponseDTO` signature is a DTO or a typed taxonomy
error. -/
theorem auth_register_taxonomy (outcome : WaitOutcome)
    (h : register_reply_conforms outcome = true) :
    exceptTaxonomy (auth_register outcome) = true := by
  cases outcome with
  | reply dd =>
    by_cases hs : dd.success
    · have hc : dto_body_conforms register_response_dto_required_keys
          register_response_dto_allowed_keys dd.body = true := by
        simpa [register_reply_conforms, hs] using h
      simp [auth_register, auth_make_rpc_call, Except.bind, auth_register_interpret, hs,
        RegisterResponseDTO.from_body, hc, exceptTaxonomy]
    · simp [auth_register, auth_make_rpc_call, Except.bind, auth_register_interpret, hs,
        exceptTaxonomy, auth_handle_error_response_is_taxonomy]
  | timeout => rfl
  | publishAmqpError => rfl
  | waitAmqpError => rfl
  | unexpectedError => rfl

/-- Every outcome of `RabbitMQAuthAdapter.refresh` whose success-reply body
matches the `RefreshTokenResponseDTO` signature is a DTO or a typed taxonomy
error. -/
theorem auth_refresh_taxonomy (outcome : WaitOutcome)
    (h : refresh_reply_conforms outcome = true) :
    exceptTaxonomy (auth_refresh outcome) = true := by
  cases outcome with
  | reply dd =>
    by_cases hs : dd.success
    · have hc : dto_body_conforms [] refresh_response_dto_allowed_keys dd.body = true := by
        simpa [refresh_reply_conforms, hs] using h
      simp [auth_refresh, auth_make_rpc_call, Except.bind, auth_refresh_interpret, hs,
        RefreshTokenResponseDTO.from_body, hc, exceptTaxonomy]
    · simp [auth_refresh, auth_make_rpc_call, Except.bind, auth_refresh_interpret, hs,
        exceptTaxonomy, auth_handle_error_response_is_taxonomy]
  | timeout => rfl
  | publishAmqpError => rfl
  | waitAmqpError => rfl
  | unexpectedError => rfl

/-- Every outcome of `RabbitMQPaymentAdapter.add_bank_card` whose reply body
matches the `PaymentTokenResponse` signature (when the constructed envelope
is successful) is a DTO or a typed taxonomy error. -/
theorem payment_add_bank_card_taxonomy (outcome : WaitOutcome)
    (h : payment_reply_conforms outcome = true) :
    exceptTaxonomy (payment_add_bank_card outcome) = true := by
  cases outcome with
  | reply dd =>
    by_cases hs : dd.status_code < 400
    · have hc : dto_body_conforms payment_token_response_required_keys
          payment_token_response_allowed_keys dd.body = true := by
        simpa [payment_reply_conforms, RabbitMQResponse.success_response, hs] using h
      simp [payment_add_bank_card, payment_make_rpc_call, Except.bind,
        payment_add_bank_card_interpret, RabbitMQResponse.success_response, hs,
        PaymentTokenResponse.from_body, hc, exceptTaxonomy]
    · simp [payment_add_bank_card, payment_make_rpc_call, Except.bind,
        payment_add_bank_card_interpret, RabbitMQResponse.success_response, hs,
        exceptTaxonomy, payment_handle_error_response_is_taxonomy]
  | timeout => rfl
  | publishAmqpError => rfl
  | waitAmqpError => rfl
  | unexpectedError => rfl

/-- Claim C6: for a valid, correctly-typed token and a non-empty
required-roles list, `validate_token` returns the decoded payload exactly when
every required role is a member of the token's `roles` claim, and raises the
403 AccessDenied error as soon as any single required role is missing — AND
semantics over the required roles, not OR. -/
theorem C6_required_roles_and_semantics (p : TokenPayload) (rt : String)
    (rs rr : List String) (htype : p.token_type = some rt) (hroles : p.roles = some rs)
    (hne : rr ≠ []) :
    (validate_token (.ok p) rt rr = .ok p ↔ ∀ r ∈ rr, r ∈ rs) ∧
    ((∃ r ∈ rr, r ∉ rs) → validate_token (.ok p) rt rr =
      .error (.apiGatewayError 403
        (some "You don\x27t have permission to access this resource."))) := by
  have hempty : rr.isEmpty = false := by simp [List.isEmpty_eq_false, hne]
  cases hall : rr.all (fun role => rs.contains role) with
  | true =>
    have hmem : ∀ r ∈ rr, r ∈ rs := by simpa [List.all_eq_true] using hall
    have hv : validate_token (.ok p) rt rr = .ok p := by
      simp [validate_token, htype, hroles, hempty, hall]
      exact hmem
    refine ⟨⟨fun _ => hmem, fun _ => hv⟩, ?_⟩
    rintro ⟨r, hr, hnr⟩
    exact absurd (hmem r hr) hnr
  | false =>
    have hmem : ¬ ∀ r ∈ rr, r ∈ rs := by
      intro hforall
      have : rr.all (fun role => rs.contains role) = true := by
        simp [List.all_eq_true]
        exact hforall
      rw [hall] at this
      cases this
    have hv : validate_token (.ok p) rt rr =
        .error (.apiGatewayError 403
          (some "You don\x27t have permission to access this resource.")) := by
      simp [validate_token, htype, hroles, hempty, hall]
      push_neg at hmem
      exact hmem
    refine ⟨⟨fun hok => ?_, fun hforall => absurd hforall hmem⟩, fun _ => hv⟩
    rw [hv] at hok
    cases hok

/-- Claim C6 witness: the role-check theorem at a concrete token with roles
`[user, css_admin]`: requiring `[css_admin]` succeeds, and the theorem's
failure direction applies to a token missing a role. -/
theorem C6_required_roles_and_semantics_witness :
    validate_token (.ok ⟨some "access", some ["user", "css_admin"]⟩) "access" ["css_admin"] =
      .ok ⟨some "access", some ["user", "css_admin"]⟩ ∧
    validate_token (.ok ⟨some "access", some ["user"]⟩) "access" ["css_admin"] =
      .error (.apiGatewayError 403
        (some "You don\x27t have permission to access this resource.")) :=
  ⟨(C6_required_roles_and_semantics ⟨some "access", some ["user", "css_admin"]⟩ "access"
      ["user", "css_admin"] ["css_admin"] rfl rfl (by decide)).1.mpr (by decide),
   (C6_required_roles_and_semantics ⟨some "access", some ["user"]⟩ "access"
      ["user"] ["css_admin"] rfl rfl (by decide)).2 ⟨"css_admin", by decide, by decide⟩⟩

/-- Claim C10: `validate_token` checks in a fixed order — decode outcome
first, then the `token_type` comparison, then roles.  A token that is both of
the wrong type and missing a required role gets the 401 wrong-type error, and
the 403 role error is reachable only when the decode succeeded and the
`token_type` claim equals the required type. -/
theorem C10_validation_check_order (d : DecodeOutcome) (rt : String) (rr : List String) :
    (∀ p t, d = .ok p → p.token_type = some t → t ≠ rt →
      validate_token d rt rr = .error (.apiGatewayError 401 (some "Invalid token."))) ∧
    (∀ dt, validate_token d rt rr = .error (.apiGatewayError 403 dt) →
      ∃ p, d = .ok p ∧ p.token_type = some rt) := by
  constructor
  · intro p t hd hty hne
    subst hd
    simp [validate_token, hty, hne]
  · intro dt hval
    cases d with
    | invalidSignature => simp [validate_token] at hval
    | expiredSignature => simp [validate_token] at hval
    | invalidToken => simp [validate_token] at hval
    | ok payload =>
      cases hty : payload.token_type with
      | none => simp [validate_token, hty] at hval
      | some t =>
        by_cases hteq : t = rt
        · subst hteq
          exact ⟨payload, rfl, hty⟩
        · simp [validate_token, hty, hteq] at hval

/-- Claim C10 witness: a token that is simultaneously of the wrong type
(`access` where `refresh` is required) and missing the required role gets the
401 wrong-type error, not the 403 role error. -/
theorem C10_validation_check_order_witness :
    validate_token (.ok ⟨some "access", some []⟩) "refresh" ["css_admin"] =
      .error (.apiGatewayError 401 (some "Invalid token.")) :=
  (C10_validation_check_order (.ok ⟨some "access", some []⟩) "refresh" ["css_admin"]).1
    ⟨some "access", some []⟩ "access" rfl rfl (by decide)

/-- Claim C9 counterexample: raw exceptions escape the core on reachable
paths.  A token that decodes successfully but lacks the `token_type` claim
makes `validate_token` raise a raw `KeyError` (likewise a correctly-typed
token lacking the `roles` claim when roles are required); and a success reply
whose body does not match the response DTO signature makes the adapters raise
a raw `TypeError` from the dataclass construction that sits outside the
try/except — here the empty payment body, which lacks all four required
`PaymentTokenResponse` fields, and an empty register body lacking
`first_name`/`last_name`. -/
theorem C9_raw_exception_counterexample :
    validate_token (.ok ⟨none, none⟩) "refresh" [] = .error (.keyError "token_type") ∧
    exceptTaxonomy (validate_token (.ok ⟨none, none⟩) "refresh" []) = false ∧
    validate_token (.ok ⟨some "access", none⟩) "access" ["user"] =
      .error (.keyError "roles") ∧
    payment_add_bank_card (.reply ⟨200, [], true, none, none⟩) =
      .error (.typeError
        "PaymentTokenResponse() keyword arguments do not match the dataclass fields") ∧
    exceptTaxonomy (payment_add_bank_card (.reply ⟨200, [], true, none, none⟩)) = false ∧
    auth_register (.reply ⟨200, [], true, none, none⟩) =
      .error (.typeError
        "RegisterResponseDTO() keyword arguments do not match the dataclass fields") ∧
    exceptTaxonomy (auth_register (.reply ⟨200, [], true, none, none⟩)) = false :=
  ⟨rfl, rfl, rfl, rfl, rfl, rfl, rfl⟩

/-- Claim C9 amended: from consumer creation onward, the adapter call paths
raise only typed taxonomy errors on every outcome whose success-reply body
matches the response DTO dataclass signature (a nonconforming success body
raises a raw `TypeError` from the DTO construction outside the try/except);
and `validate_token` raises only the 401/403 taxonomy errors provided that
every successfully decoded payload carries the `token_type` claim and, when
roles are required, the `roles` claim; for tokens missing those claims a raw
Python `KeyError` escapes instead. -/
theorem C9_taxonomy_totality (d : DecodeOutcome) (rt : String) (rr : List String)
    (h : ∀ p, d = .ok p → p.token_type ≠ none ∧ (rr ≠ [] → p.roles ≠ none)) :
    exceptTaxonomy (validate_token d rt rr) = true ∧
    (∀ e, validate_token d rt rr = .error e →
      ∃ dt, e = .apiGatewayError 401 dt ∨ e = .apiGatewayError 403 dt) ∧
    (∀ outcome, register_reply_conforms outcome = true →
      exceptTaxonomy (auth_register outcome) = true) ∧
    (∀ outcome, refresh_reply_conforms outcome = true →
      exceptTaxonomy (auth_refresh outcome) = true) ∧
    (∀ outcome, payment_reply_conforms outcome = true →
      exceptTaxonomy (payment_add_bank_card outcome) = true) := by
  refine ⟨?_, ?_, fun outcome ho => auth_register_taxonomy outcome ho,
    fun outcome ho => auth_refresh_taxonomy outcome ho,
    fun outcome ho => payment_add_bank_card_taxonomy outcome ho⟩
  all_goals
    cases d with
    | invalidSignature => first
      | rfl
      | intro e he
        rw [show validate_token .invalidSignature rt rr =
          .error (.apiGatewayError 401 (some "Invalid token signature.")) from rfl] at he
        injection he with he2
        exact ⟨some "Invalid token signature.", Or.inl he2.symm⟩
    | expiredSignature => first
      | rfl
      | intro e he
        rw [show validate_token .expiredSignature rt rr =
          .error (.apiGatewayError 401 (some "Expired token signature.")) from rfl] at he
        injection he with he2
        exact ⟨some "Expired token signature.", Or.inl he2.symm⟩
    | invalidToken => first
      | rfl
      | intro e he
        rw [show validate_token .invalidToken rt rr =
          .error (.apiGatewayError 401 (some "Invalid token.")) from rfl] at he
        injection he with he2
        exact ⟨some "Invalid token.", Or.inl he2.symm⟩
    | ok payload =>
      obtain ⟨htt, hrl⟩ := h payload rfl
      cases hty : payload.token_type with
      | none => exact absurd hty htt
      | some t =>
        by_cases hteq : t = rt
        · subst hteq
          by_cases hre : rr = []
          · subst hre
            simp [validate_token, hty, exceptTaxonomy]
          · cases hrs : payload.roles with
            | none => exact absurd hrs (hrl hre)
            | some rs =>
              have hempty : rr.isEmpty = false := by simp [List.isEmpty_eq_false, hre]
              by_cases hall : ∀ r ∈ rr, r ∈ rs
              · have hv : validate_token (.ok payload) t rr = .ok payload := by
                  simp [validate_token, hty, hrs, hempty]
                  exact hall
                first
                | rw [hv]; rfl
                | intro e he
                  rw [hv] at he
                  cases he
              · have hv : validate_token (.ok payload) t rr =
                    .error (.apiGatewayError 403
                      (some "You don\x27t have permission to access this resource.")) := by
                  simp [validate_token, hty, hrs, hempty]
                  push_neg at hall
                  exact hall
                first
                | rw [hv]; rfl
                | intro e he
                  rw [hv] at he
                  injection he with he2
                  exact ⟨some "You don\x27t have permission to access this resource.",
                    Or.inr he2.symm⟩
        · have hv : validate_token (.ok payload) rt rr =
              .error (.apiGatewayError 401 (some "Invalid token.")) := by
            simp [validate_token, hty, hteq]
          first
          | rw [hv]; rfl
          | intro e he
            rw [hv] at he
            injection he with he2
            exact ⟨some "Invalid token.", Or.inl he2.symm⟩

/-- Claim C9 amended witness: the totality theorem at a concrete well-formed
wrong-type token (taxonomy error raised) and at a concrete register reply
whose body matches the `RegisterResponseDTO` signature (no raw exception). -/
theorem C9_taxonomy_totality_witness :
    exceptTaxonomy (validate_token (.ok ⟨some "access", some ["user"]⟩) "refresh" []) = true ∧
    exceptTaxonomy (auth_register
      (.reply ⟨200, [("first_name", "Igor"), ("last_name", "R")], true, none, none⟩)) = true :=
  ⟨(C9_taxonomy_totality (.ok ⟨some "access", some ["user"]⟩) "refresh" []
      (fun p hp => by cases hp; exact ⟨by simp, fun _ => by simp⟩)).1,
   (C9_taxonomy_totality (.ok ⟨some "access", some ["user"]⟩) "refresh" []
      (fun p hp => by cases hp; exact ⟨by simp, fun _ => by simp⟩)).2.2.1
     (.reply ⟨200, [("first_name", "Igor"), ("last_name", "R")], true, none, none⟩)
     (by decide)⟩

/-- Claim C4: the `RabbitMQResponse` the adapters construct from a broker
reply satisfies the envelope invariant — `success` is false whenever the
status code is 400 or greater, given a reply conforming to the wire protocol
(for the auth adapter, which copies the reply's own `success` field) and
unconditionally for the payment adapter's `success_response` factory — and
whenever `success` is false the reply's body plays no part in the operation's
result: the interpretation step yields the same error for any body. -/
theorem C4_envelope_invariant_and_body_ignored (d : ReplyPayload)
    (resp : RabbitMQResponse) (b : List (String × String))
    (hwire : 400 ≤ d.status_code → d.success = false)
    (hfail : resp.success = false) :
    (∀ r, auth_make_rpc_call (.reply d) = .ok r → 400 ≤ r.status_code → r.success = false) ∧
    (∀ sc bd, 400 ≤ sc → (RabbitMQResponse.success_response sc bd).success = false) ∧
    (∀ r, payment_make_rpc_call (.reply d) = .ok r → 400 ≤ r.status_code → r.success = false) ∧
    (auth_register_interpret resp = auth_register_interpret { resp with body := b } ∧
      ∃ e, auth_register_interpret resp = .error e) ∧
    (auth_refresh_interpret resp = auth_refresh_interpret { resp with body := b } ∧
      ∃ e, auth_refresh_interpret resp = .error e) ∧
    (payment_add_bank_card_interpret resp =
        payment_add_bank_card_interpret { resp with body := b } ∧
      ∃ e, payment_add_bank_card_interpret resp = .error e) := by
  refine ⟨?_, ?_, ?_, ⟨?_, ?_⟩, ⟨?_, ?_⟩, ⟨?_, ?_⟩⟩
  · intro r hr hs
    injection hr with h1
    subst h1
    exact hwire hs
  · intro sc bd hsc
    simp [RabbitMQResponse.success_response]
    omega
  · intro r hr hs
    injection hr with h1
    subst h1
    simp [RabbitMQResponse.success_response] at hs ⊢
    omega
  · simp [auth_register_interpret, hfail]
    rfl
  · exact ⟨auth_handle_error_response resp, by simp [auth_register_interpret, hfail]⟩
  · simp [auth_refresh_interpret, hfail]
    rfl
  · exact ⟨auth_handle_error_response resp, by simp [auth_refresh_interpret, hfail]⟩
  · simp [payment_add_bank_card_interpret, hfail]
    rfl
  · exact ⟨payment_handle_error_response resp, by simp [payment_add_bank_card_interpret, hfail]⟩

/-- Claim C4 witness: the invariant theorem applied at a concrete conforming
500-reply and a concrete failed envelope whose body is swapped out. -/
theorem C4_envelope_invariant_and_body_ignored_witness :
    (RabbitMQResponse.success_response 503 []).success = false ∧
    auth_register_interpret ⟨401, [("a", "b")], false, some "bad", some "auth"⟩ =
      auth_register_interpret ⟨401, [], false, some "bad", some "auth"⟩ :=
  ⟨(C4_envelope_invariant_and_body_ignored ⟨500, [], false, some "boom", some "payment"⟩
      ⟨401, [("a", "b")], false, some "bad", some "auth"⟩ [] (fun _ => rfl) rfl).2.1 503 []
      (by decide),
   (C4_envelope_invariant_and_body_ignored ⟨500, [], false, some "boom", some "payment"⟩
      ⟨401, [("a", "b")], false, some "bad", some "auth"⟩ [] (fun _ => rfl) rfl).2.2.2.1.1⟩
